import Mathlib

/-
  Shallow embedding of the Branches-V1 work-order dashboard core:
  - progress summarizers (src/unnamed/part_004 class ProgressWidget.getSummary,
    src/unnamed/part_003 WorkOrderSync.computeLocalSummary,
    src/google-sheets-setup/Code.gs getWorkOrderSummary,
    src/unnamed/part_004 object ProgressWidget.getProgress)
  - the sync engine (src/js/workOrderSync.js sync/pull)
  - the pending-progress retry bookkeeping (src/unnamed/part_003)
  - the chat keyword router (src/js/chat.js determineToolRoute)
  - the remote sheet writer (src/google-sheets-setup/Code.gs saveWorkOrders)

  JavaScript numbers that hold quantities/hours are modelled as ℚ; absent
  object fields are modelled as Option; JS truthiness on numbers (0 falsy)
  and strings ("" falsy) is made explicit in the jsFalsyOr/jsStrOr helpers.
-/

namespace BranchesV1

/-! ### JavaScript primitive semantics -/

/-- JS `a || b` where `a : number | undefined` (0 and undefined are falsy;
NaN does not arise for the numeric fields we model). -/
def jsFalsyOr (o : Option ℚ) (d : ℚ) : ℚ :=
  match o with
  | some x => if x = 0 then d else x
  | none => d

/-- JS `a || b` where `a : string | undefined` ("" and undefined are falsy). -/
def jsStrOr (o : Option String) (d : String) : String :=
  match o with
  | some s => if s = "" then d else s
  | none => d

/-- JS `Math.round` on finite values: halfway cases round toward +∞. -/
def jsRound (q : ℚ) : ℤ := ⌊q + 1/2⌋

/-- JS `String.prototype.toLowerCase` (ASCII-adequate). -/
def strToLower (s : String) : String := ⟨s.data.map Char.toLower⟩

/-- JS `String.prototype.includes`: substring containment. -/
def strIncludes (s sub : String) : Bool :=
  s.data.tails.any (fun t => sub.data.isPrefixOf t)

/-- Worker for `jsSplitWs`: walks the characters keeping the chunk built so
far (reversed) and whether we are inside a whitespace run. -/
def jsSplitWsGo : List Char → List Char → Bool → List (List Char)
  | [], cur, _ => [cur.reverse]
  | c :: rest, cur, inRun =>
    if c.isWhitespace then
      if inRun then jsSplitWsGo rest cur true
      else cur.reverse :: jsSplitWsGo rest [] true
    else jsSplitWsGo rest (c :: cur) false

/-- JS `s.split(/\s+/)`: pieces between maximal whitespace runs (keeps an
empty piece at either end when the string starts/ends with whitespace). -/
def jsSplitWs (s : String) : List String :=
  (jsSplitWsGo s.data [] false).map (fun cs => String.mk cs)

/-! ### Data model (§3 of the spec, read off the JS objects) -/

/-- A line item as stored inside a work order (`wo.lineItems[i]`). -/
structure LineItem where
  lineNumber : Option ℚ
  itemName : Option String
  description : Option String
  quantity : Option ℚ
  unit : Option String
  deriving Repr, DecidableEq

/-- A progress record for one line-item position (`progress.items[j]`). -/
structure ProgressItem where
  index : Nat
  quantityCompleted : Option ℚ
  hoursUsed : Option ℚ
  status : Option String
  notes : Option String
  lastUpdated : Option String
  updatedBy : Option String
  deriving Repr, DecidableEq

/-- The per-work-order progress object (`progressData[woNumber]`). -/
structure ProgressSet where
  items : List ProgressItem
  deriving Repr, DecidableEq

/-- A work order (`workOrders[i]` in local storage / `getAll` payloads). -/
structure WorkOrder where
  woNumber : String
  jobName : Option String
  client : Option String
  category : Option String
  status : Option String
  address : Option String
  jobNotes : Option String
  salesRep : Option String
  importedAt : Option String
  lastUpdated : Option String
  lineItems : List LineItem
  deriving Repr, DecidableEq

/-- The summary object produced by the summarizers. -/
structure Summary where
  woNumber : String
  jobName : Option String
  percentage : ℤ
  totalItems : Nat
  completedItems : Nat
  inProgressItems : Nat
  totalHours : ℚ
  usedHours : ℚ
  remainingHours : ℚ
  status : String
  deriving Repr, DecidableEq

/-- Association-list lookup standing in for JS object indexing `o[k]`. -/
def alistLookup {α : Type} (l : List (String × α)) (k : String) : Option α :=
  match l.find? (fun p => p.1 == k) with
  | some p => some p.2
  | none => none

/-! ### Progress summarizer
(src/unnamed/part_004 lines 288-348, class `ProgressWidget.getSummary`;
the same accumulation appears in src/unnamed/part_003 `computeLocalSummary`
and src/google-sheets-setup/Code.gs `getWorkOrderSummary`). -/

/-- Labor-hour detection of the summarizers:
`itemLower.includes('hour') || itemLower.includes('labor') || itemLower.includes('man')`
applied to `(item.itemName || '').toLowerCase()`. -/
def isLaborName (name : String) : Bool :=
  let lower := strToLower name
  strIncludes lower "hour" || strIncludes lower "labor" || strIncludes lower "man"

/-- `isLaborName` applied the way the summarizers do. -/
def isLaborItem (item : LineItem) : Bool :=
  isLaborName (jsStrOr item.itemName "")

/-- Per-matched-record hours contribution:
`parseFloat(prog.hoursUsed) || parseFloat(prog.quantityCompleted) || 0`. -/
def laborContrib (p : ProgressItem) : ℚ :=
  jsFalsyOr p.hoursUsed (jsFalsyOr p.quantityCompleted 0)

/-- One iteration of the `lineItems.forEach((item, idx) => ...)` loop of the
summarizers, acting on the `(totalHours, usedHours)` accumulator. -/
def laborStep (progressItems : List ProgressItem) (acc : ℚ × ℚ)
    (p : Nat × LineItem) : ℚ × ℚ :=
  if isLaborItem p.2 then
    let th := acc.1 + jsFalsyOr p.2.quantity 0
    match progressItems.find? (fun pr => pr.index == p.1) with
    | some pr => (th, acc.2 + laborContrib pr)
    | none => (th, acc.2)
  else acc

/-- The `lineItems.forEach((item, idx) => ...)` accumulation of
`(totalHours, usedHours)` shared by the three summarizers. -/
def laborTotals (lineItems : List LineItem) (progressItems : List ProgressItem) : ℚ × ℚ :=
  lineItems.enum.foldl (laborStep progressItems) (0, 0)

/-- Completed-item count: `progressItems.filter(p => p.status === 'completed').length`. -/
def completedCount (progressItems : List ProgressItem) : Nat :=
  (progressItems.filter (fun p => p.status == some "completed")).length

/-- In-progress count: `progressItems.filter(p => p.status === 'in-progress').length`. -/
def inProgressCount (progressItems : List ProgressItem) : Nat :=
  (progressItems.filter (fun p => p.status == some "in-progress")).length

/-- `totalItems > 0 ? Math.round((completed / totalItems) * 100) : 0`. -/
def summaryPercentage (totalItems completed : Nat) : ℤ :=
  if totalItems > 0 then jsRound (((completed : ℚ) / (totalItems : ℚ)) * 100) else 0

/-- `percentage === 100 ? 'completed' : percentage > 0 ? 'in-progress' : 'not-started'`. -/
def summaryStatus (percentage : ℤ) : String :=
  if percentage = 100 then "completed"
  else if percentage > 0 then "in-progress"
  else "not-started"

/-- The summary object built by the class `getSummary`
(src/unnamed/part_004 lines 310-342): `remainingHours` is clamped with
`Math.max(0, totalHours - usedHours)`. -/
def buildSummary (wo : WorkOrder) (progressItems : List ProgressItem) : Summary :=
  let totalItems := wo.lineItems.length
  let completed := completedCount progressItems
  let percentage := summaryPercentage totalItems completed
  let totals := laborTotals wo.lineItems progressItems
  { woNumber := wo.woNumber
    jobName := wo.jobName
    percentage := percentage
    totalItems := totalItems
    completedItems := completed
    inProgressItems := inProgressCount progressItems
    totalHours := totals.1
    usedHours := totals.2
    remainingHours := max 0 (totals.1 - totals.2)
    status := summaryStatus percentage }

/-- One entry of `computeLocalSummary` (src/unnamed/part_003 lines 1390-1426):
identical accumulation, but `remainingHours: totalHours - usedHours` with no
clamping; `getWorkOrderSummary` in Code.gs lines 272-307 is the same formula. -/
def computeLocalSummaryEntry (progressData : List (String × ProgressSet))
    (wo : WorkOrder) : Summary :=
  let totalItems := wo.lineItems.length
  let progressItems :=
    match alistLookup progressData wo.woNumber with
    | some ps => ps.items
    | none => []
  let completed := completedCount progressItems
  let percentage := summaryPercentage totalItems completed
  let totals := laborTotals wo.lineItems progressItems
  { woNumber := wo.woNumber
    jobName := wo.jobName
    percentage := percentage
    totalItems := totalItems
    completedItems := completed
    inProgressItems := inProgressCount progressItems
    totalHours := totals.1
    usedHours := totals.2
    remainingHours := totals.1 - totals.2
    status := summaryStatus percentage }

/-- JS object-key assignment `o[k] = v`: replaces an existing entry, else appends. -/
def alistInsert {α : Type} (l : List (String × α)) (k : String) (v : α) :
    List (String × α) :=
  match l with
  | [] => [(k, v)]
  | e :: rest => if e.1 == k then (k, v) :: rest else e :: alistInsert rest k v

/-- Summary cache of the class widget: `this.cache[woNumber] = {data, timestamp}`. -/
def SummaryCache : Type := List (String × Summary × ℤ)

/-- Cache write of `getSummary`. -/
def cacheInsert (c : SummaryCache) (k : String) (v : Summary × ℤ) : SummaryCache :=
  alistInsert c k v

/-- The cache-miss path of the class `ProgressWidget.getSummary`: find the
work order in the local collection (`null` when absent), build the summary
and cache it. -/
def widgetGetSummaryCompute (workOrders : List WorkOrder)
    (progressData : List (String × ProgressSet))
    (cache : SummaryCache) (now : ℤ) (woNumber : String) :
    Option Summary × SummaryCache :=
  match workOrders.find? (fun w => w.woNumber == woNumber) with
  | none => (none, cache)
  | some wo =>
    let progressItems :=
      match alistLookup progressData woNumber with
      | some ps => ps.items
      | none => []
    let summary := buildSummary wo progressItems
    (some summary, cacheInsert cache woNumber (summary, now))

/-- `ProgressWidget.getSummary` (src/unnamed/part_004 lines 288-348, class
version): serves a cached summary younger than `cacheTimeout = 30000` ms,
otherwise recomputes from the local collections, returning `null` when no
work order matches; returns the possibly-updated cache alongside. -/
def widgetGetSummary (workOrders : List WorkOrder)
    (progressData : List (String × ProgressSet))
    (cache : SummaryCache) (now : ℤ) (woNumber : String) :
    Option Summary × SummaryCache :=
  match alistLookup cache woNumber with
  | some (data, ts) =>
    if now - ts < 30000 then (some data, cache)
    else widgetGetSummaryCompute workOrders progressData cache now woNumber
  | none => widgetGetSummaryCompute workOrders progressData cache now woNumber

/-! ### Legacy widget `ProgressWidget.getProgress`
(src/unnamed/part_004 lines 15-72, object version). -/

/-- Labor detection of the legacy widget: `/hour|labor|man|time|install/i.test(...)`
— note the two extra alternatives `time` and `install`. -/
def regexLaborTest (name : String) : Bool :=
  let lower := strToLower name
  strIncludes lower "hour" || strIncludes lower "labor" || strIncludes lower "man" ||
    strIncludes lower "time" || strIncludes lower "install"

/-- The object returned by the legacy `getProgress` (hour fields rounded). -/
structure ProgressInfoV1 where
  woNumber : String
  totalItems : Nat
  completedItems : Nat
  inProgressItems : Nat
  notStartedItems : ℤ
  percentage : ℤ
  totalHours : ℤ
  completedHours : ℤ
  hoursPercentage : ℤ
  deriving Repr, DecidableEq

/-- The `lineItems.forEach((item, index) => ...)` accumulator of the legacy
widget: `(completedItems, inProgressItems, totalHours, completedHours)`.
The progress record for an item is looked up positionally:
`progress?.items?.[index]`. -/
def getProgressV1Totals (lineItems : List LineItem)
    (progressItems : Option (List ProgressItem)) : Nat × Nat × ℚ × ℚ :=
  lineItems.enum.foldl
    (fun acc p =>
      let itemProgress : Option ProgressItem :=
        match progressItems with
        | some items => items.get? p.1
        | none => none
      let isLabor := regexLaborTest (jsStrOr p.2.itemName "")
      let acc1 :=
        match itemProgress with
        | some ip =>
          if ip.status == some "completed" then
            (acc.1 + 1, acc.2.1,
             acc.2.2.1,
             if isLabor then acc.2.2.2 + jsFalsyOr p.2.quantity 0 else acc.2.2.2)
          else if ip.status == some "in-progress" then
            (acc.1, acc.2.1 + 1,
             acc.2.2.1,
             match ip.quantityCompleted with
             | some q => if isLabor ∧ q ≠ 0 then acc.2.2.2 + q else acc.2.2.2
             | none => acc.2.2.2)
          else acc
        | none => acc
      if isLabor then (acc1.1, acc1.2.1, acc1.2.2.1 + jsFalsyOr p.2.quantity 0, acc1.2.2.2)
      else acc1)
    (0, 0, 0, 0)

/-- `ProgressWidget.getProgress` (object version): `null` when no work order
matches `woNumber`, otherwise the aggregate described above. -/
def getProgressV1 (workOrders : List WorkOrder)
    (progressData : List (String × ProgressSet)) (woNumber : String) :
    Option ProgressInfoV1 :=
  match workOrders.find? (fun w => w.woNumber == woNumber) with
  | none => none
  | some wo =>
    let progress := alistLookup progressData woNumber
    let lineItems := wo.lineItems
    let totals := getProgressV1Totals lineItems (progress.map (fun ps => ps.items))
    let totalItems := lineItems.length
    let completedItems := totals.1
    let inProgressItems := totals.2.1
    let totalHours := totals.2.2.1
    let completedHours := totals.2.2.2
    let percentage := summaryPercentage totalItems completedItems
    let hoursPercentage :=
      if totalHours > 0 then jsRound ((completedHours / totalHours) * 100) else percentage
    some
      { woNumber := woNumber
        totalItems := totalItems
        completedItems := completedItems
        inProgressItems := inProgressItems
        notStartedItems := (totalItems : ℤ) - completedItems - inProgressItems
        percentage := percentage
        totalHours := jsRound totalHours
        completedHours := jsRound completedHours
        hoursPercentage := hoursPercentage }

/-! ### Chat router (src/js/chat.js lines 12-19 and 403-443). -/

/-- The static per-tool keyword table, in declaration order. -/
def toolKeywords : List (String × List String) :=
  [("inventory", ["inventory", "stock", "plants", "supplies", "materials", "clippings",
                  "search", "find", "boxwood", "mulch", "fertilizer", "browse",
                  "list all", "show all"]),
   ("grading", ["grade", "quality", "assess", "evaluation", "sell", "pricing",
                "condition", "value"]),
   ("scheduler", ["schedule", "calendar", "crew", "task", "appointment", "plan",
                  "assign", "daily", "tomorrow"]),
   ("tools", ["tools", "rental", "checkout", "equipment", "borrow", "return",
              "maintenance"]),
   ("logistics", ["logistics", "transportation", "procurement", "emergency", "errand",
                  "delivery", "route", "shipping", "transport", "dispatch"]),
   ("chessmap", ["crew", "location", "map", "chess", "tracking", "coordinates",
                 "proximity", "nearest", "closest", "team", "position", "where",
                 "locate", "find crew", "crew map", "who is closest"])]

/-- Per-keyword score: `+2` when the keyword is a whitespace token of the
lower-cased message, `+1` when it occurs only as a substring, `0` otherwise. -/
def keywordScore (messageLower : String) (kw : String) : Nat :=
  if strIncludes messageLower kw then
    if (jsSplitWs messageLower).contains kw then 2 else 1
  else 0

/-- Per-tool score: the `keywords.forEach` accumulation. -/
def toolScore (messageLower : String) (kws : List String) : Nat :=
  kws.foldl (fun s kw => s + keywordScore messageLower kw) 0

/-- The `Object.entries(scores).reduce(...)` step: strict `>` keeps the first
maximal entry; the initial accumulator is `{toolId: 'general', score: 0}`. -/
def foldBest (init : String × Nat) (l : List (String × Nat)) : String × Nat :=
  l.foldl (fun best p => if p.2 > best.2 then p else best) init

/-- Result of `determineToolRoute`. -/
structure RouteResult where
  toolId : String
  confidence : ℚ
  keywords : List String
  deriving Repr, DecidableEq

/-- `ChatManager.extractMatchingKeywords`. -/
def extractMatchingKeywords (message : String) (toolId : String) : List String :=
  let messageLower := strToLower message
  let kws := match alistLookup toolKeywords toolId with
    | some l => l
    | none => []
  kws.filter (fun kw => strIncludes messageLower kw)

/-- The `scores` object of `determineToolRoute`, in tool-declaration order. -/
def routerScores (messageLower : String) : List (String × Nat) :=
  toolKeywords.map (fun p => (p.1, toolScore messageLower p.2))

/-- The `bestMatch` reduce of `determineToolRoute`. -/
def routerBest (messageLower : String) : String × Nat :=
  foldBest ("general", 0) (routerScores messageLower)

/-- `ChatManager.determineToolRoute` (src/js/chat.js lines 403-437). -/
def determineToolRoute (message : String) : RouteResult :=
  let messageLower := strToLower message
  let best := routerBest messageLower
  if best.2 ≥ 2 then
    { toolId := best.1
      confidence := min ((best.2 : ℚ) / 5) 1
      keywords := extractMatchingKeywords message best.1 }
  else { toolId := "general", confidence := 0, keywords := [] }

/-! ### Sync engine (src/js/workOrderSync.js `sync` lines 255-332 and
`pull` lines 430-462). Network I/O is abstracted as an oracle argument:
the reply the `getAll` request would produce, and whether the `fullSync`
POST resolves. -/

/-- `WorkOrderSync.config` (the parts `sync`/`pull` read or write). -/
structure SyncConfig where
  enabled : Bool
  sheetUrl : String
  lastSync : Option String
  syncInProgress : Bool
  deriving Repr, DecidableEq

/-- The local-storage collections `sync`/`pull` read and write. -/
structure LocalStore where
  workOrders : List WorkOrder
  progressData : List (String × ProgressSet)
  lastSyncStored : Option String
  deriving Repr, DecidableEq

/-- Outcome of a `getAll` request: network/transport failure, or the parsed
JSON reply (whose `workOrders` / `progressData` / `lastSync` fields may be
absent). -/
inductive RemoteGetAll where
  | netFail
  | reply (success : Bool) (workOrders : Option (List WorkOrder))
      (progressData : Option (List (String × ProgressSet)))
      (lastSync : Option String)
  deriving Repr, DecidableEq

/-- The observable result category of a `sync()`/`pull()` call. -/
inductive SyncOutcome where
  | inFlight
  | notConfigured
  | offline
  | errored
  | ok
  deriving Repr, DecidableEq

/-- Remote requests a call actually issued. -/
inductive SyncEffect where
  | getAll
  | fullSync
  deriving Repr, DecidableEq

/-- `WorkOrderSync.sync()` (lines 255-332): busy-guard, configuration and
online checks, `getAll`, local-wins merge (remote adopted only into an empty
local collection), `fullSync` push of the merged data, timestamp update.
Every error path runs the `catch` block, which clears `syncInProgress`. -/
def sync (cfg : SyncConfig) (store : LocalStore) (online : Bool)
    (remote : RemoteGetAll) (pushOk : Bool) (now : String) :
    SyncConfig × LocalStore × SyncOutcome × List SyncEffect :=
  if cfg.syncInProgress then (cfg, store, .inFlight, [])
  else if !cfg.enabled || cfg.sheetUrl == "" then (cfg, store, .notConfigured, [])
  else if !online then (cfg, store, .offline, [])
  else
    match remote with
    | .netFail => ({ cfg with syncInProgress := false }, store, .errored, [.getAll])
    | .reply success wos prog _ls =>
      if !success then ({ cfg with syncInProgress := false }, store, .errored, [.getAll])
      else
        let localWorkOrders := store.workOrders
        let localProgress := store.progressData
        let adoptWos := localWorkOrders.length == 0 &&
          (match wos with | some l => l.length > 0 | none => false)
        let mergedWorkOrders := if adoptWos then wos.getD [] else localWorkOrders
        let store1 := if adoptWos then { store with workOrders := mergedWorkOrders } else store
        let adoptProg := localProgress.length == 0 && prog.isSome
        let mergedProgress := if adoptProg then prog.getD [] else localProgress
        let store2 := if adoptProg then { store1 with progressData := mergedProgress } else store1
        if mergedWorkOrders.length > 0 then
          if pushOk then
            ({ cfg with lastSync := some now, syncInProgress := false },
             { store2 with lastSyncStored := some now }, .ok, [.getAll, .fullSync])
          else
            ({ cfg with syncInProgress := false }, store2, .errored, [.getAll, .fullSync])
        else
          ({ cfg with lastSync := some now, syncInProgress := false },
           { store2 with lastSyncStored := some now }, .ok, [.getAll])

/-- `WorkOrderSync.pull()` (lines 430-462): on a successful `getAll` reply the
remote collections overwrite local storage unconditionally (whenever the
fields are present), and `lastSync` is taken from the reply. -/
def pull (cfg : SyncConfig) (store : LocalStore) (online : Bool)
    (remote : RemoteGetAll) :
    SyncConfig × LocalStore × SyncOutcome × List SyncEffect :=
  if !cfg.enabled || cfg.sheetUrl == "" then (cfg, store, .notConfigured, [])
  else if !online then (cfg, store, .offline, [])
  else
    match remote with
    | .netFail => (cfg, store, .errored, [.getAll])
    | .reply success wos prog ls =>
      if success then
        let store1 := match wos with
          | some l => { store with workOrders := l }
          | none => store
        let store2 := match prog with
          | some p => { store1 with progressData := p }
          | none => store1
        ({ cfg with lastSync := ls }, { store2 with lastSyncStored := ls }, .ok, [.getAll])
      else (cfg, store, .errored, [.getAll])

/-! ### Pending-progress bookkeeping
(src/unnamed/part_003 `updateProgress` lines 1196-1216,
`markPendingProgressSync` lines 1493-1499, `clearPendingSyncs` lines 1508-1511). -/

/-- The state the part_003 `WorkOrderSync` class keeps in local storage. -/
structure CloudState where
  progressData : List (String × ProgressSet)
  pendingWorkOrders : List String
  pendingProgress : List String
  deriving Repr, DecidableEq

/-- `markPendingProgressSync(woNumber)`: appends unless already present. -/
def markPendingProgressSync (st : CloudState) (woNumber : String) : CloudState :=
  if st.pendingProgress.contains woNumber then st
  else { st with pendingProgress := st.pendingProgress ++ [woNumber] }

/-- `updateProgress(woNumber, progress)`: writes the local collection, then
attempts the cloud POST; on failure the identifier is marked pending. The
cloud attempt is abstracted by `cloudOk`. -/
def updateProgressP3 (st : CloudState) (woNumber : String) (progress : ProgressSet)
    (useGoogleSheets : Bool) (cloudOk : Bool) : CloudState :=
  let st1 := { st with progressData := alistInsert st.progressData woNumber progress }
  if useGoogleSheets then
    if cloudOk then st1 else markPendingProgressSync st1 woNumber
  else st1

/-- `clearPendingSyncs()`: removes both pending collections wholesale. -/
def clearPendingSyncs (st : CloudState) : CloudState :=
  { st with pendingWorkOrders := [], pendingProgress := [] }

/-! ### Remote sheet writer
(src/google-sheets-setup/Code.gs `saveWorkOrders` lines 327-408). -/

/-- One row of the WorkOrders sheet (header row excluded). -/
structure WoRow where
  woNumber : String
  jobName : String
  client : String
  category : String
  status : String
  address : String
  jobNotes : String
  salesRep : String
  importedAt : String
  lastUpdated : String
  deriving Repr, DecidableEq

/-- One row of the LineItems sheet. -/
structure LiRow where
  woNumber : String
  lineNumber : ℚ
  itemName : String
  description : String
  quantity : ℚ
  unit : String
  deriving Repr, DecidableEq

/-- The two sheets `saveWorkOrders` touches. -/
structure SheetDb where
  woRows : List WoRow
  liRows : List LiRow
  deriving Repr, DecidableEq

/-- The `existingMap` construction: the loop `existingMap[key] = i + 1`
keeps, for each `woNumber`, the index of the last matching row. -/
def lastIdxOf (rows : List WoRow) (wo : String) : Option Nat :=
  rows.enum.foldl (fun acc p => if p.2.woNumber == wo then some p.1 else acc) none

/-- The `rowData` array written for one work order. -/
def mkWoRow (wo : WorkOrder) (ts : String) : WoRow :=
  { woNumber := wo.woNumber
    jobName := jsStrOr wo.jobName ""
    client := jsStrOr wo.client ""
    category := jsStrOr wo.category ""
    status := jsStrOr wo.status ""
    address := jsStrOr wo.address ""
    jobNotes := jsStrOr wo.jobNotes ""
    salesRep := jsStrOr wo.salesRep ""
    importedAt := jsStrOr wo.importedAt ts
    lastUpdated := ts }

/-- The line-item row appended for one item: `item.lineNumber || index + 1`,
with string fields defaulted to `''` and quantity to `0`. -/
def mkLiRow (woNumber : String) (p : Nat × LineItem) : LiRow :=
  { woNumber := woNumber
    lineNumber := jsFalsyOr p.2.lineNumber ((p.1 : ℚ) + 1)
    itemName := jsStrOr p.2.itemName ""
    description := jsStrOr p.2.description ""
    quantity := jsFalsyOr p.2.quantity 0
    unit := jsStrOr p.2.unit "" }

/-- `saveWorkOrders(workOrders)`: `existingMap` is built once from the sheet
as found at entry; each work order then updates its (last) existing row in
place or appends a new one, and — when it carries line items — the LineItems
sheet rows for its `woNumber` are deleted bottom-up and re-appended. -/
def saveWorkOrdersGs (workOrders : List WorkOrder) (db : SheetDb) (ts : String) :
    SheetDb :=
  let idxOf := fun w => lastIdxOf db.woRows w
  workOrders.foldl
    (fun sh wo =>
      let rowData := mkWoRow wo ts
      let woRows2 :=
        match idxOf wo.woNumber with
        | some i => sh.woRows.set i rowData
        | none => sh.woRows ++ [rowData]
      let liRows2 :=
        if wo.lineItems.length > 0 then
          (sh.liRows.filter (fun r => !(r.woNumber == wo.woNumber))) ++
            wo.lineItems.enum.map (mkLiRow wo.woNumber)
        else sh.liRows
      { woRows := woRows2, liRows := liRows2 })
    db

/-! ### Derived characterizations used by the theorems -/

/-- Sum of `quantity || 0` over exactly the labor-detected line items. -/
def laborHoursOf (l : List LineItem) : ℚ :=
  ((l.filter isLaborItem).map (fun it => jsFalsyOr it.quantity 0)).sum

/-- Hours-used total, spelled structurally: the labor item at position `n`
contributes the `laborContrib` of its matching progress record (if any). -/
def usedHoursFrom (pis : List ProgressItem) : Nat → List LineItem → ℚ
  | _, [] => 0
  | n, it :: rest =>
    (if isLaborItem it then
      match pis.find? (fun pr => pr.index == n) with
      | some pr => laborContrib pr
      | none => 0
     else 0) + usedHoursFrom pis (n + 1) rest

/-- The freshness test of the widget summary cache:
`cached && Date.now() - cached.timestamp < this.cacheTimeout`. -/
def cacheFresh (cache : SummaryCache) (now : ℤ) (w : String) : Bool :=
  match alistLookup cache w with
  | some (_, ts) => now - ts < 30000
  | none => false

/-! ### Lemmas about the shared labor accumulation -/

lemma laborHoursOf_cons (it : LineItem) (rest : List LineItem) :
    laborHoursOf (it :: rest) =
      (if isLaborItem it then jsFalsyOr it.quantity 0 else 0) + laborHoursOf rest := by
  unfold laborHoursOf
  cases h : isLaborItem it <;> simp [List.filter_cons, h]

lemma usedHoursFrom_cons (pis : List ProgressItem) (n : Nat) (it : LineItem)
    (rest : List LineItem) :
    usedHoursFrom pis n (it :: rest) =
      (if isLaborItem it then
        match pis.find? (fun pr => pr.index == n) with
        | some pr => laborContrib pr
        | none => 0
       else 0) + usedHoursFrom pis (n + 1) rest := rfl

lemma laborStep_foldl (pis : List ProgressItem) :
    ∀ (l : List LineItem) (n : Nat) (acc : ℚ × ℚ),
      List.foldl (laborStep pis) acc (List.enumFrom n l) =
        (acc.1 + laborHoursOf l, acc.2 + usedHoursFrom pis n l) := by
  intro l
  induction l with
  | nil => intro n acc; simp [laborHoursOf, usedHoursFrom, List.enumFrom]
  | cons it rest ih =>
    intro n acc
    have hcons : List.enumFrom n (it :: rest) = (n, it) :: List.enumFrom (n + 1) rest := rfl
    rw [hcons, List.foldl_cons, ih, usedHoursFrom_cons, laborHoursOf_cons]
    unfold laborStep
    cases hlab : isLaborItem it
    · simp only [hlab, Bool.false_eq_true, if_false, Prod.mk.injEq]
      constructor <;> ring
    · cases hf : pis.find? (fun pr => pr.index == n) <;>
        simp only [hlab, if_true, hf, Prod.mk.injEq] <;> constructor <;> ring

lemma laborTotals_eq (lis : List LineItem) (pis : List ProgressItem) :
    laborTotals lis pis = (laborHoursOf lis, usedHoursFrom pis 0 lis) := by
  unfold laborTotals List.enum
  simpa using laborStep_foldl pis lis 0 (0, 0)

/-! ### Claim C2 -/

/-- Claim C2 (amended): the class `ProgressWidget.getSummary` computes
`remainingHours = max(0, totalHours - usedHours)`, hence never negative; but
`computeLocalSummary` (part_003) — and the identical `getWorkOrderSummary`
formula in Code.gs — return the unclamped difference `totalHours - usedHours`,
which can be negative when `usedHours > totalHours`. -/
theorem C2_remainingHours_clamp (wo : WorkOrder) (pis : List ProgressItem)
    (progressData : List (String × ProgressSet)) :
    ((buildSummary wo pis).remainingHours =
        max 0 ((buildSummary wo pis).totalHours - (buildSummary wo pis).usedHours))
    ∧ 0 ≤ (buildSummary wo pis).remainingHours
    ∧ (computeLocalSummaryEntry progressData wo).remainingHours =
        (computeLocalSummaryEntry progressData wo).totalHours -
          (computeLocalSummaryEntry progressData wo).usedHours :=
  ⟨rfl, le_max_left 0 _, rfl⟩

/-- Claim C2 counterexample: a work order with one labor item of 5 hours and a
progress record with `hoursUsed = 8` makes `computeLocalSummary` report
`remainingHours = -3 < 0`, so the summarizer field is not
`max(0, totalHours - usedHours)` in every implementation. -/
theorem C2_counterexample :
    (computeLocalSummaryEntry
        [("WO-1", ⟨[⟨0, some 8, some 8, some "in-progress", none, none, none⟩]⟩)]
        ⟨"WO-1", none, none, none, none, none, none, none, none, none,
          [⟨none, some "Install Labor", none, some 5, none⟩]⟩).remainingHours = -3
    ∧ (-3 : ℚ) < 0 := by
  constructor
  · norm_num [computeLocalSummaryEntry, alistLookup, buildSummary, laborTotals, laborStep,
      laborContrib, List.enum, List.enumFrom, List.find?, jsFalsyOr, completedCount,
      inProgressCount, summaryPercentage, jsRound,
      show isLaborItem ⟨none, some "Install Labor", none, some 5, none⟩ = true from by decide]
  · norm_num

/-! ### Claim C3 -/

/-- Claim C3 (amended): in the `getSummary`-family summarizers a line item
counts toward `totalHours` iff its lower-cased `itemName` contains one of the
substrings `hour`, `labor`, `man` — `totalHours` is exactly the sum of
`quantity || 0` over the so-detected items; the legacy object
`ProgressWidget.getProgress` additionally detects the substrings `time` and
`install`. -/
theorem C3_labor_detection :
    (∀ (lis : List LineItem) (pis : List ProgressItem),
      (laborTotals lis pis).1 = laborHoursOf lis)
    ∧ (∀ name : String, regexLaborTest name =
        (isLaborName name || strIncludes (strToLower name) "time" ||
          strIncludes (strToLower name) "install")) :=
  ⟨fun lis pis => by rw [laborTotals_eq], fun _ => rfl⟩

/-- Claim C3 counterexample: the item `"Drive Time"` contains none of `hour`,
`labor`, `man`, yet the legacy `ProgressWidget.getProgress` counts its
quantity 5 toward `totalHours`. -/
theorem C3_counterexample :
    Option.map ProgressInfoV1.totalHours
        (getProgressV1
          [⟨"W1", none, none, none, none, none, none, none, none, none,
            [⟨none, some "Drive Time", none, some 5, none⟩]⟩] [] "W1") = some 5
    ∧ isLaborName "Drive Time" = false := by
  constructor
  · norm_num [getProgressV1, getProgressV1Totals, alistLookup, List.find?, List.enum,
      List.enumFrom, jsFalsyOr, jsStrOr, jsRound, summaryPercentage,
      show regexLaborTest "Drive Time" = true from by decide,
      show ¬(("Drive Time" : String) = "") from by decide]
  · decide

/-! ### Claim C6 -/

/-- Claim C6: the summarizer's `percentage` is `0` when `totalItems = 0`
(no division by zero), equals `⌊100·completed/total + 1/2⌋` (round-half-up,
within 1/2 of the exact ratio) when `totalItems > 0`, and is exactly `100`
when all items are completed. -/
theorem C6_percentage (wo : WorkOrder) (pis : List ProgressItem) :
    ((buildSummary wo pis).totalItems = 0 → (buildSummary wo pis).percentage = 0)
    ∧ ((buildSummary wo pis).totalItems > 0 →
        (buildSummary wo pis).percentage =
          ⌊((buildSummary wo pis).completedItems : ℚ) /
              ((buildSummary wo pis).totalItems : ℚ) * 100 + 1/2⌋)
    ∧ ((buildSummary wo pis).totalItems > 0 →
        ((buildSummary wo pis).percentage : ℚ) ≤
            ((buildSummary wo pis).completedItems : ℚ) /
              ((buildSummary wo pis).totalItems : ℚ) * 100 + 1/2
          ∧ ((buildSummary wo pis).completedItems : ℚ) /
              ((buildSummary wo pis).totalItems : ℚ) * 100 - 1/2 <
              ((buildSummary wo pis).percentage : ℚ))
    ∧ ((buildSummary wo pis).totalItems > 0 →
        (buildSummary wo pis).completedItems = (buildSummary wo pis).totalItems →
        (buildSummary wo pis).percentage = 100) := by
  have hperc : (buildSummary wo pis).percentage =
      summaryPercentage wo.lineItems.length (completedCount pis) := rfl
  have htot : (buildSummary wo pis).totalItems = wo.lineItems.length := rfl
  have hcomp : (buildSummary wo pis).completedItems = completedCount pis := rfl
  rw [hperc, htot, hcomp]
  set t := wo.lineItems.length with ht
  set c := completedCount pis with hc
  refine ⟨?_, ?_, ?_, ?_⟩
  · intro h0
    unfold summaryPercentage
    simp [h0]
  · intro hpos
    unfold summaryPercentage jsRound
    rw [if_pos hpos]
  · intro hpos
    unfold summaryPercentage jsRound
    rw [if_pos hpos]
    constructor
    · exact Int.floor_le ((c : ℚ) / (t : ℚ) * 100 + 1/2)
    · have := Int.lt_floor_add_one ((c : ℚ) / (t : ℚ) * 100 + 1/2)
      linarith
  · intro hpos hct
    unfold summaryPercentage jsRound
    rw [if_pos hpos, hct]
    have htpos : (0 : ℚ) < (t : ℚ) := by exact_mod_cast hpos
    rw [div_self htpos.ne']
    norm_num

/-- Claim C6 witness: two line items, both marked completed, give
`percentage = 100`. -/
theorem C6_witness :
    (buildSummary
        ⟨"W6", none, none, none, none, none, none, none, none, none,
          [⟨none, some "Stone", none, some 1, none⟩,
           ⟨none, some "Sod", none, some 2, none⟩]⟩
        [⟨0, none, none, some "completed", none, none, none⟩,
         ⟨1, none, none, some "completed", none, none, none⟩]).percentage = 100 :=
  (C6_percentage _ _).2.2.2 (by decide) (by decide)

/-! ### Claim C7 -/

/-- Claim C7 (amended): for a matched labor-progress record the summarizer
adds `hoursUsed` when it is present and nonzero; when `hoursUsed` is absent
OR present-but-zero (JS falsy) it falls back to `quantityCompleted || 0`;
and `usedHours` is the positional sum of these contributions. -/
theorem C7_hoursUsed_fallback :
    (∀ (p : ProgressItem) (h : ℚ), p.hoursUsed = some h → h ≠ 0 → laborContrib p = h)
    ∧ (∀ p : ProgressItem, p.hoursUsed = some 0 →
        laborContrib p = jsFalsyOr p.quantityCompleted 0)
    ∧ (∀ p : ProgressItem, p.hoursUsed = none →
        laborContrib p = jsFalsyOr p.quantityCompleted 0)
    ∧ (∀ (lis : List LineItem) (pis : List ProgressItem),
        (laborTotals lis pis).2 = usedHoursFrom pis 0 lis) := by
  refine ⟨?_, ?_, ?_, ?_⟩
  · intro p h hp hne; simp [laborContrib, jsFalsyOr, hp, hne]
  · intro p hp; simp [laborContrib, jsFalsyOr, hp]
  · intro p hp; simp [laborContrib, jsFalsyOr, hp]
  · intro lis pis; rw [laborTotals_eq]

/-- Claim C7 witness: a record with `hoursUsed = 7` (nonzero) contributes 7,
not its `quantityCompleted = 4`. -/
theorem C7_witness :
    laborContrib ⟨0, some 4, some 7, none, none, none, none⟩ = 7 :=
  C7_hoursUsed_fallback.1 _ 7 rfl (by norm_num)

/-- Claim C7 counterexample: with `hoursUsed = 0` present and
`quantityCompleted = 4`, the summarizer accumulates 4 (the fallback), not the
present `hoursUsed` value 0 the claim requires. -/
theorem C7_counterexample :
    (buildSummary
        ⟨"W2", none, none, none, none, none, none, none, none, none,
          [⟨none, some "Labor Hours", none, some 10, none⟩]⟩
        [⟨0, some 4, some 0, some "in-progress", none, none, none⟩]).usedHours = 4
    ∧ (4 : ℚ) ≠ 0 := by
  constructor
  · norm_num [buildSummary, laborTotals, laborStep, laborContrib, List.enum, List.enumFrom,
      List.find?, jsFalsyOr,
      show isLaborItem ⟨none, some "Labor Hours", none, some 10, none⟩ = true from by decide]
  · norm_num

/-! ### Claim C4 -/

lemma markPendingProgressSync_contains (st : CloudState) (wo : String) :
    (markPendingProgressSync st wo).pendingProgress.contains wo = true := by
  unfold markPendingProgressSync
  by_cases h : st.pendingProgress.contains wo = true
  · rw [if_pos h]; exact h
  · rw [if_neg h]
    simp

/-- Claim C4 (amended): a failed cloud write in `updateProgress` adds the
`woNumber` to `pendingProgressSync`; but a subsequent successful
`updateProgress` for the same identifier leaves the pending collection
untouched — entries are only ever removed wholesale by `clearPendingSyncs()`,
which no success path calls. -/
theorem C4_pending_progress (st : CloudState) (wo : String) (p : ProgressSet) :
    ((updateProgressP3 st wo p true false).pendingProgress.contains wo = true)
    ∧ ((updateProgressP3 st wo p true true).pendingProgress = st.pendingProgress)
    ∧ ((clearPendingSyncs st).pendingProgress = []) := by
  refine ⟨?_, rfl, rfl⟩
  exact markPendingProgressSync_contains
    { st with progressData := alistInsert st.progressData wo p } wo

/-- Claim C4 witness: instantiates the pending-progress behaviour at an empty
state. -/
theorem C4_witness :
    ((updateProgressP3 ⟨[], [], []⟩ "WO-1" ⟨[]⟩ true false).pendingProgress.contains
        "WO-1" = true)
    ∧ ((updateProgressP3 ⟨[], [], []⟩ "WO-1" ⟨[]⟩ true true).pendingProgress = []) :=
  ⟨(C4_pending_progress ⟨[], [], []⟩ "WO-1" ⟨[]⟩).1,
   (C4_pending_progress ⟨[], [], []⟩ "WO-1" ⟨[]⟩).2.1⟩

/-- Claim C4 counterexample: `updateProgress` fails once for `WO-1` (pending
now holds it) and then succeeds for `WO-1`; the pending collection still
contains `WO-1`, contradicting "cleared when a later push for that identifier
succeeds". -/
theorem C4_counterexample :
    ((updateProgressP3 (updateProgressP3 ⟨[], [], []⟩ "WO-1" ⟨[]⟩ true false)
        "WO-1" ⟨[]⟩ true true).pendingProgress.contains "WO-1" = true) := by
  decide

/-! ### Claim C10 -/

/-- Claim C10 (amended): when the widget cache holds no fresh (< 30 s) entry
for `woNumber`, the class `getSummary` returns `null` exactly when no work
order with that number exists in the local collection (and a summary object
exactly when one does); the legacy `getProgress` likewise returns `null`
exactly when no work order matches. A fresh cached entry, however, is served
without consulting the collection (see the counterexample). -/
theorem C10_missing_wo (wos : List WorkOrder) (progData : List (String × ProgressSet))
    (cache : SummaryCache) (now : ℤ) (w : String)
    (hfresh : cacheFresh cache now w = false) :
    (((widgetGetSummary wos progData cache now w).1 = none) ↔
      wos.find? (fun x => x.woNumber == w) = none)
    ∧ ((getProgressV1 wos progData w = none) ↔
      wos.find? (fun x => x.woNumber == w) = none) := by
  constructor
  · have hcompute : ∀ (c : SummaryCache),
        ((widgetGetSummaryCompute wos progData c now w).1 = none) ↔
          wos.find? (fun x => x.woNumber == w) = none := by
      intro c
      unfold widgetGetSummaryCompute
      cases hf : wos.find? (fun x => x.woNumber == w) <;> simp [hf]
    cases hl : alistLookup cache w with
    | none =>
      unfold widgetGetSummary
      rw [hl]
      exact hcompute cache
    | some e =>
      have hf2 : decide (now - e.2 < 30000) = false := by
        unfold cacheFresh at hfresh
        rw [hl] at hfresh
        exact hfresh
      have hnot : ¬(now - e.2 < 30000) := of_decide_eq_false hf2
      unfold widgetGetSummary
      rw [hl]
      show ((if now - e.2 < 30000 then (some e.1, cache)
             else widgetGetSummaryCompute wos progData cache now w).1 = none) ↔ _
      rw [if_neg hnot]
      exact hcompute cache
  · unfold getProgressV1
    cases hf : wos.find? (fun x => x.woNumber == w) <;> simp [hf]

/-- Claim C10 witness: with an empty cache and an empty work-order
collection, the class `getSummary` returns `null` (no crash, no summary). -/
theorem C10_witness :
    cacheFresh [] 0 "W9" = false ∧ (widgetGetSummary [] [] [] 0 "W9").1 = none :=
  ⟨rfl, ((C10_missing_wo [] [] [] 0 "W9" rfl).1).mpr rfl⟩

/-- Claim C10 counterexample: a summary computed while `W9` existed is cached;
1 second later — with the work-order collection now empty — `getSummary`
still returns a summary object for `W9` instead of `null`, so the claim as
stated ("returns null for every woNumber with no matching work order") fails
in the presence of a fresh cache entry. -/
theorem C10_counterexample :
    (widgetGetSummary [] []
        (widgetGetSummary
            [⟨"W9", none, none, none, none, none, none, none, none, none, []⟩]
            [] [] 0 "W9").2
        1000 "W9").1.isSome = true := by
  rfl

/-! ### Claim C5 -/

lemma foldBest_ge (l : List (String × Nat)) :
    ∀ init : String × Nat,
      init.2 ≤ (foldBest init l).2 ∧ ∀ q ∈ l, q.2 ≤ (foldBest init l).2 := by
  induction l with
  | nil => intro init; exact ⟨le_refl _, by simp⟩
  | cons p rest ih =>
    intro init
    unfold foldBest at ih ⊢
    simp only [List.foldl_cons]
    rcases ih (if p.2 > init.2 then p else init) with ⟨h1, h2⟩
    have hstep : init.2 ≤ (if p.2 > init.2 then p else init).2 := by
      split <;> omega
    have hstepp : p.2 ≤ (if p.2 > init.2 then p else init).2 := by
      split <;> omega
    refine ⟨le_trans hstep h1, ?_⟩
    intro q hq
    rcases List.mem_cons.mp hq with rfl | hq2
    · exact le_trans hstepp h1
    · exact h2 q hq2

lemma foldBest_mem (l : List (String × Nat)) :
    ∀ init : String × Nat, foldBest init l = init ∨ foldBest init l ∈ l := by
  induction l with
  | nil => intro init; left; rfl
  | cons p rest ih =>
    intro init
    unfold foldBest at ih ⊢
    simp only [List.foldl_cons]
    rcases ih (if p.2 > init.2 then p else init) with h | h
    · rw [h]
      split
      · right; exact List.mem_cons_self _ _
      · left; rfl
    · right; exact List.mem_cons_of_mem _ h

/-- Claim C5: `determineToolRoute` returns `toolId = "general"` with
confidence 0 when the best keyword score is below 2; otherwise it returns a
highest-scoring tool (the score of the returned tool bounds every tool's
score) with confidence `min(score/5, 1)`. Scores themselves are, by
construction of `toolScore`, 2 per whole-word keyword match and 1 per
substring-only match. -/
theorem C5_router (message : String) :
    ((routerBest (strToLower message)).2 < 2 →
      determineToolRoute message = { toolId := "general", confidence := 0, keywords := [] })
    ∧ (2 ≤ (routerBest (strToLower message)).2 →
        (determineToolRoute message).toolId = (routerBest (strToLower message)).1
      ∧ routerBest (strToLower message) ∈ routerScores (strToLower message)
      ∧ (∀ q ∈ routerScores (strToLower message),
          q.2 ≤ (routerBest (strToLower message)).2)
      ∧ (determineToolRoute message).confidence =
          min (((routerBest (strToLower message)).2 : ℚ) / 5) 1) := by
  constructor
  · intro h
    unfold determineToolRoute
    rw [if_neg (by omega)]
  · intro h
    refine ⟨?_, ?_, ?_, ?_⟩
    · unfold determineToolRoute
      rw [if_pos h]
    · rcases foldBest_mem (routerScores (strToLower message)) ("general", 0) with heq | hmem
      · exfalso
        unfold routerBest at h
        rw [heq] at h
        omega
      · exact hmem
    · intro q hq
      exact (foldBest_ge (routerScores (strToLower message)) ("general", 0)).2 q hq
    · unfold determineToolRoute
      rw [if_pos h]

/-- Claim C5 witness: `"hi"` matches nothing and routes to `general` with
confidence 0; a message holding the whole words `inventory` and `stock`
routes to the inventory tool. -/
theorem C5_witness :
    determineToolRoute "hi" = { toolId := "general", confidence := 0, keywords := [] }
    ∧ (determineToolRoute "there is inventory stock").toolId = "inventory" :=
  ⟨(C5_router "hi").1 (by decide),
   (((C5_router "there is inventory stock").2 (by decide)).1).trans (by decide)⟩

/-! ### Claim C1 -/

/-- Claim C1 (amended): `sync()` implements the local-wins merge — a
non-empty local work-order collection is never overwritten by remote data
(whatever the remote reply), and an empty local collection adopts exactly
the remote list when the reply carries a non-empty one. `pull()`, by
contrast, overwrites the local work-order collection with the remote one
unconditionally on a successful `getAll` reply, even when local data is
present. -/
theorem C1_local_wins (cfg : SyncConfig) (store : LocalStore) (online : Bool)
    (remote : RemoteGetAll) (pushOk : Bool) (now : String) :
    (store.workOrders ≠ [] →
      (sync cfg store online remote pushOk now).2.1.workOrders = store.workOrders)
    ∧ (∀ (l : List WorkOrder) (prog : Option (List (String × ProgressSet)))
        (ls : Option String),
        store.workOrders = [] → cfg.syncInProgress = false → cfg.enabled = true →
        cfg.sheetUrl ≠ "" → online = true → l ≠ [] →
        (sync cfg store online (RemoteGetAll.reply true (some l) prog ls) pushOk
            now).2.1.workOrders = l)
    ∧ (∀ (l : List WorkOrder) (prog : Option (List (String × ProgressSet)))
        (ls : Option String),
        cfg.enabled = true → cfg.sheetUrl ≠ "" → online = true →
        (pull cfg store online
            (RemoteGetAll.reply true (some l) prog ls)).2.1.workOrders = l) := by
  refine ⟨?_, ?_, ?_⟩
  · intro h
    have hlen : (store.workOrders.length == 0) = false := by
      rw [beq_eq_false_iff_ne]
      exact fun hl => h (List.length_eq_zero.mp hl)
    unfold sync
    simp only [hlen, Bool.false_and, Bool.false_eq_true, if_false]
    repeat' (first | rfl | split)
  · intro l prog ls hempty hflag hen hurl honline hl
    subst honline
    have hlen : (store.workOrders.length == 0) = true := by rw [hempty]; rfl
    have hlpos : (decide (l.length > 0)) = true :=
      decide_eq_true (List.length_pos.mpr hl)
    have hurlb : (cfg.sheetUrl == "") = false := by
      rw [beq_eq_false_iff_ne]; exact hurl
    unfold sync
    rw [if_neg (by rw [hflag]; exact Bool.false_ne_true)]
    rw [if_neg (by rw [hen, hurlb]; exact Bool.false_ne_true)]
    rw [if_neg (by exact Bool.false_ne_true)]
    simp only [Bool.not_true, Bool.false_eq_true, if_false, hlen, hlpos, Bool.and_self,
      Bool.true_and, if_true, Option.getD]
    repeat' (first | rfl | split)
  · intro l prog ls hen hurl honline
    subst honline
    have hurlb : (cfg.sheetUrl == "") = false := by
      rw [beq_eq_false_iff_ne]; exact hurl
    unfold pull
    rw [if_neg (by rw [hen, hurlb]; exact Bool.false_ne_true)]
    rw [if_neg (by exact Bool.false_ne_true)]
    simp only [if_true]
    repeat' (first | rfl | split)

/-- Claim C1 witness: a configured, online, empty-local `pull` adopts the
remote list. -/
theorem C1_witness :
    (pull ⟨true, "https://sheet", none, false⟩ ⟨[], [], none⟩ true
        (RemoteGetAll.reply true
          (some [⟨"WO-B", none, none, none, none, none, none, none, none, none, []⟩])
          none none)).2.1.workOrders =
      [⟨"WO-B", none, none, none, none, none, none, none, none, none, []⟩] :=
  (C1_local_wins ⟨true, "https://sheet", none, false⟩ ⟨[], [], none⟩ true
      RemoteGetAll.netFail true "now").2.2 _ none none rfl (by decide) rfl

/-- Claim C1 counterexample: the Local Cache holds `WO-A`, the remote reply
holds `WO-B`; after a successful `pull()` pass the local collection is
exactly the remote one and `WO-A` is gone — a locally present work order WAS
overwritten by remote data during a pull pass. -/
theorem C1_counterexample :
    ((pull ⟨true, "https://sheet", none, false⟩
        ⟨[⟨"WO-A", none, none, none, none, none, none, none, none, none, []⟩], [], none⟩
        true
        (RemoteGetAll.reply true
          (some [⟨"WO-B", none, none, none, none, none, none, none, none, none, []⟩])
          none none)).2.1.workOrders =
      [⟨"WO-B", none, none, none, none, none, none, none, none, none, []⟩])
    ∧ ¬((⟨"WO-A", none, none, none, none, none, none, none, none, none, []⟩ : WorkOrder) ∈
        (pull ⟨true, "https://sheet", none, false⟩
          ⟨[⟨"WO-A", none, none, none, none, none, none, none, none, none, []⟩], [], none⟩
          true
          (RemoteGetAll.reply true
            (some [⟨"WO-B", none, none, none, none, none, none, none, none, none, []⟩])
            none none)).2.1.workOrders) := by
  constructor <;> decide

/-! ### Claim C8 -/

/-- Claim C8: calling `sync()` while one is in flight is a no-op — the state
is returned unchanged with no remote request issued — and a `sync()` that
actually runs (entered with the busy flag clear) finishes with
`syncInProgress = false` on the success path and on every error path alike,
so the engine always returns from Syncing to Idle. -/
theorem C8_busy_guard (cfg : SyncConfig) (store : LocalStore) (online : Bool)
    (remote : RemoteGetAll) (pushOk : Bool) (now : String) :
    (cfg.syncInProgress = true →
      sync cfg store online remote pushOk now = (cfg, store, SyncOutcome.inFlight, []))
    ∧ (cfg.syncInProgress = false →
      (sync cfg store online remote pushOk now).1.syncInProgress = false) := by
  constructor
  · intro h
    unfold sync
    rw [if_pos h]
  · intro h
    unfold sync
    repeat' (first | exact h | rfl | split | simp only [])

/-- Claim C8 witness: the busy-guard no-op and the flag-clearing on a failed
run, at concrete states. -/
theorem C8_witness :
    sync ⟨true, "u", none, true⟩ ⟨[], [], none⟩ true RemoteGetAll.netFail true "t"
        = (⟨true, "u", none, true⟩, ⟨[], [], none⟩, SyncOutcome.inFlight, [])
    ∧ (sync ⟨true, "u", none, false⟩ ⟨[], [], none⟩ true RemoteGetAll.netFail true
        "t").1.syncInProgress = false :=
  ⟨(C8_busy_guard ⟨true, "u", none, true⟩ ⟨[], [], none⟩ true RemoteGetAll.netFail
      true "t").1 rfl,
   (C8_busy_guard ⟨true, "u", none, false⟩ ⟨[], [], none⟩ true RemoteGetAll.netFail
      true "t").2 rfl⟩

/-! ### Claim C9 -/

lemma filter_length_set (p : WoRow → Bool) :
    ∀ (rows : List WoRow) (i : Nat) (r x : WoRow),
      rows.get? i = some x → p x = true → p r = true →
      ((rows.set i r).filter p).length = (rows.filter p).length := by
  intro rows
  induction rows with
  | nil => intro i r x h; simp at h
  | cons y ys ih =>
    intro i r x hget hx hr
    cases i with
    | zero =>
      have hyx : y = x := by simpa using hget
      subst hyx
      simp [List.set, List.filter_cons, hx, hr]
    | succ n =>
      have hget2 : ys.get? n = some x := by simpa using hget
      simp only [List.set]
      cases hpy : p y <;> simp [List.filter_cons, hpy, ih n r x hget2 hx hr]

lemma lastIdx_fold_isSome (w : String) :
    ∀ (l : List (Nat × WoRow)) (acc : Option Nat), acc.isSome = true →
      (List.foldl (fun a q => if q.2.woNumber == w then some q.1 else a)
          acc l).isSome = true := by
  intro l
  induction l with
  | nil => intro acc h; simpa using h
  | cons p rest ih =>
    intro acc h
    rw [List.foldl_cons]
    apply ih
    split
    · rfl
    · exact h

lemma lastIdxOf_isSome_of_mem (w : String) :
    ∀ (rows : List WoRow) (n : Nat) (acc : Option Nat) (r : WoRow),
      r ∈ rows → (r.woNumber == w) = true →
      (List.foldl (fun a q => if q.2.woNumber == w then some q.1 else a) acc
          (List.enumFrom n rows)).isSome = true := by
  intro rows
  induction rows with
  | nil => intro n acc r hmem; simp at hmem
  | cons y ys ih =>
    intro n acc r hmem hr
    have hcons : List.enumFrom n (y :: ys) = (n, y) :: List.enumFrom (n + 1) ys := rfl
    rw [hcons, List.foldl_cons]
    rcases List.mem_cons.mp hmem with rfl | hmem2
    · apply lastIdx_fold_isSome
      rw [if_pos hr]
      rfl
    · exact ih (n + 1) _ r hmem2 hr

lemma lastIdxOf_some_spec (w : String) :
    ∀ (rows : List WoRow) (n : Nat) (acc : Option Nat) (j : Nat),
      List.foldl (fun a q => if q.2.woNumber == w then some q.1 else a) acc
          (List.enumFrom n rows) = some j →
      acc = some j ∨ ∃ k x, rows.get? k = some x ∧ j = n + k ∧ (x.woNumber == w) = true := by
  intro rows
  induction rows with
  | nil => intro n acc j h; left; simpa [List.enumFrom] using h
  | cons y ys ih =>
    intro n acc j h
    have hcons : List.enumFrom n (y :: ys) = (n, y) :: List.enumFrom (n + 1) ys := rfl
    rw [hcons, List.foldl_cons] at h
    rcases ih (n + 1) _ j h with hacc | ⟨k, x, hget, hj, hx⟩
    · by_cases hy : (y.woNumber == w) = true
      · rw [if_pos hy] at hacc
        have hnj : n = j := by injection hacc
        right
        exact ⟨0, y, rfl, by omega, hy⟩
      · rw [if_neg hy] at hacc
        left; exact hacc
    · right
      exact ⟨k + 1, x, by simpa using hget, by omega, hx⟩
lemma lastIdxOf_none_no_match (rows : List WoRow) (w : String)
    (h : lastIdxOf rows w = none) :
    ∀ r ∈ rows, (r.woNumber == w) = false := by
  intro r hmem
  by_contra hne
  have hx : (r.woNumber == w) = true := by
    cases hb : (r.woNumber == w)
    · exact absurd hb hne
    · rfl
  have := lastIdxOf_isSome_of_mem w rows 0 none r hmem hx
  unfold lastIdxOf at h
  unfold List.enum at h
  rw [h] at this
  exact Bool.false_ne_true this

lemma lastIdxOf_some_match (rows : List WoRow) (w : String) (i : Nat)
    (h : lastIdxOf rows w = some i) :
    ∃ x, rows.get? i = some x ∧ (x.woNumber == w) = true := by
  unfold lastIdxOf List.enum at h
  rcases lastIdxOf_some_spec w rows 0 none i h with hacc | ⟨k, x, hget, hj, hx⟩
  · exact absurd hacc (by simp)
  · exact ⟨x, by rw [hj]; simpa using hget, hx⟩

lemma saveGs_step_count (wo : WorkOrder) (db : SheetDb) (ts : String)
    (hle : (db.woRows.filter (fun r => r.woNumber == wo.woNumber)).length ≤ 1) :
    ((saveWorkOrdersGs [wo] db ts).woRows.filter
        (fun r => r.woNumber == wo.woNumber)).length = 1 := by
  unfold saveWorkOrdersGs
  simp only [List.foldl_cons, List.foldl_nil]
  cases hidx : lastIdxOf db.woRows wo.woNumber with
  | none =>
    show (List.filter (fun r => r.woNumber == wo.woNumber)
        (db.woRows ++ [mkWoRow wo ts])).length = 1
    have hfe : db.woRows.filter (fun r => r.woNumber == wo.woNumber) = [] := by
      apply List.filter_eq_nil_iff.mpr
      intro a ha
      rw [lastIdxOf_none_no_match db.woRows wo.woNumber hidx a ha]
      exact Bool.false_ne_true
    rw [List.filter_append, hfe]
    simp [mkWoRow]
  | some i =>
    show (List.filter (fun r => r.woNumber == wo.woNumber)
        (db.woRows.set i (mkWoRow wo ts))).length = 1
    obtain ⟨x, hget, hx⟩ := lastIdxOf_some_match db.woRows wo.woNumber i hidx
    have hcount := filter_length_set (fun r => r.woNumber == wo.woNumber)
      db.woRows i (mkWoRow wo ts) x hget hx (by simp [mkWoRow])
    have hxmem : x ∈ db.woRows := List.get?_mem hget
    have hxin : x ∈ db.woRows.filter (fun r => r.woNumber == wo.woNumber) :=
      List.mem_filter.mpr ⟨hxmem, hx⟩
    have h1 := List.length_pos_of_mem hxin
    omega

lemma saveGs_step_li (wo : WorkOrder) (db : SheetDb) (ts : String)
    (h : wo.lineItems ≠ []) :
    (saveWorkOrdersGs [wo] db ts).liRows.filter (fun r => r.woNumber == wo.woNumber) =
      wo.lineItems.enum.map (mkLiRow wo.woNumber) := by
  unfold saveWorkOrdersGs
  simp only [List.foldl_cons, List.foldl_nil]
  have hlen : wo.lineItems.length > 0 := List.length_pos.mpr h
  rw [if_pos hlen, List.filter_append]
  have h1 : (db.liRows.filter (fun r => !(r.woNumber == wo.woNumber))).filter
      (fun r => r.woNumber == wo.woNumber) = [] := by
    apply List.filter_eq_nil_iff.mpr
    intro a ha
    have h2 := (List.mem_filter.mp ha).2
    intro h3
    rw [h3] at h2
    simp at h2
  have h4 : (wo.lineItems.enum.map (mkLiRow wo.woNumber)).filter
      (fun r => r.woNumber == wo.woNumber) = wo.lineItems.enum.map (mkLiRow wo.woNumber) := by
    apply List.filter_eq_self.mpr
    intro a ha
    obtain ⟨q, hq, hqa⟩ := List.mem_map.mp ha
    rw [← hqa]
    simp [mkLiRow]
  rw [h1, h4, List.nil_append]

lemma saveGs_step_li_nil (wo : WorkOrder) (db : SheetDb) (ts : String)
    (h : wo.lineItems = []) :
    (saveWorkOrdersGs [wo] db ts).liRows = db.liRows := by
  unfold saveWorkOrdersGs
  simp only [List.foldl_cons, List.foldl_nil]
  rw [if_neg (by rw [h]; simp)]

/-- Claim C9: pushing the same work order twice through `saveWorkOrders` is
idempotent — starting from a sheet holding at most one row for its
`woNumber`, after `push([wo]); push([wo])` the WorkOrders sheet holds exactly
one row for that number, and the LineItems sheet holds exactly the rows of
`wo.lineItems` for it (or is untouched when the work order carries no line
items): nothing is duplicated. -/
theorem C9_idempotent_push (wo : WorkOrder) (db : SheetDb) (ts1 ts2 : String)
    (hle : (db.woRows.filter (fun r => r.woNumber == wo.woNumber)).length ≤ 1) :
    ((saveWorkOrdersGs [wo] (saveWorkOrdersGs [wo] db ts1) ts2).woRows.filter
        (fun r => r.woNumber == wo.woNumber)).length = 1
    ∧ (wo.lineItems ≠ [] →
        (saveWorkOrdersGs [wo] (saveWorkOrdersGs [wo] db ts1) ts2).liRows.filter
            (fun r => r.woNumber == wo.woNumber) =
          wo.lineItems.enum.map (mkLiRow wo.woNumber))
    ∧ (wo.lineItems = [] →
        (saveWorkOrdersGs [wo] (saveWorkOrdersGs [wo] db ts1) ts2).liRows = db.liRows) := by
  refine ⟨?_, ?_, ?_⟩
  · exact saveGs_step_count wo _ ts2 (le_of_eq (saveGs_step_count wo db ts1 hle))
  · intro h
    exact saveGs_step_li wo _ ts2 h
  · intro h
    rw [saveGs_step_li_nil wo _ ts2 h, saveGs_step_li_nil wo db ts1 h]

/-- Claim C9 witness: two pushes of a concrete work order into an empty sheet
leave exactly one WorkOrders row for it. -/
theorem C9_witness :
    ((saveWorkOrdersGs
        [⟨"W3", none, none, none, none, none, none, none, none, none, []⟩]
        (saveWorkOrdersGs
          [⟨"W3", none, none, none, none, none, none, none, none, none, []⟩]
          ⟨[], []⟩ "t1") "t2").woRows.filter
        (fun r => r.woNumber == "W3")).length = 1 :=
  (C9_idempotent_push ⟨"W3", none, none, none, none, none, none, none, none, none, []⟩
      ⟨[], []⟩ "t1" "t2" (by decide)).1

end BranchesV1
